import Mathlib

/-!
Shallow embedding of the real-time eye-tracking engine of `src/shared/eyetracking.py`
(classes `EyetrackerCalibration`, `EyeTrackerClient`, `EyeTracker`, `GazeDrawer`).

Modelling conventions:
* Python floats are modelled as `ℚ`; a float that may be IEEE NaN is modelled as
  `FloatN := Option ℚ` with `none` standing for NaN (NaN propagates through
  arithmetic, and `int()` on NaN raises `ValueError`).
* Python exceptions are modelled with `Except String`: `.error msg` is a raised
  exception, `.ok` a normal return.
* Side effects that the claims talk about (control requests sent over the REQ
  socket, files written, video frames written, closes of OS resources) are
  recorded explicitly in the state as event lists / counters.
* The `CalibData` state carries one ghost field, `added_frames`, recording the
  `(site_id, frame)` coordinates at which the calibration routine appended a
  (reference, pupil) pair; it is written exactly in the branch in which the two
  real lists are appended, and is used only in specifications.
-/

/-! ## Module-level constants (eyetracking.py lines 14-28) -/

def INSTRUCTION_DURATION : ℕ := 5

def MARKER_SIZE : ℚ := 50

def MARKER_DURATION_FRAMES : ℕ := 240

/-- number of frames to eliminate at start and end of marker -/
def CALIBRATION_LEAD_IN : ℕ := 20

def CALIBRATION_LEAD_OUT : ℕ := 20

/-- remove pupil samples with low confidence: the source value `.4`, written as
the normalized rational `2/5` (see `PUPIL_CONFIDENCE_THRESHOLD_eq`). -/
def PUPIL_CONFIDENCE_THRESHOLD : ℚ := ⟨2, 5, by norm_num, by norm_num⟩

/-- `MARKER_POSITIONS` array (lines 21-22). -/
def MARKER_POSITIONS : List (ℚ × ℚ) :=
  [(1/4, 1/2), (0, 1/2), (0, 1), (1/2, 1), (1, 1),
   (1, 1/2), (1, 0), (1/2, 0), (0, 0), (3/4, 1/2)]

/-! ## Data model -/

/-- One pupil detector output (the `pupil` dict used by the code: `norm_pos`,
`diameter`, `confidence`, `timestamp`). -/
structure PupilSample where
  norm_pos : ℚ × ℚ
  diameter : ℚ
  confidence : ℚ
  timestamp : ℚ
  deriving DecidableEq, Repr

/-- One reference-target dict built by `EyetrackerCalibration._run` (lines 97-100):
`norm_pos`, `screen_pos`, `timestamp`. -/
structure RefTarget where
  norm_pos : ℚ × ℚ
  screen_pos : ℚ × ℚ
  timestamp : ℚ
  deriving DecidableEq, Repr

/-! ## EyetrackerCalibration._run — sample collection (lines 51-104) -/

/-- The two collection lists of `_run` (`all_refs_per_flip`, `all_pupils`),
plus the ghost trace `added_frames` of `(site_id, frame-in-site)` coordinates at
which a pair was appended (specification-only instrumentation). -/
structure CalibData where
  all_refs_per_flip : List RefTarget
  all_pupils : List PupilSample
  added_frames : List (ℕ × ℕ)
  deriving DecidableEq, Repr

def CalibData.init : CalibData := ⟨[], [], []⟩

/-- Body of the per-frame loop (lines 84-103) once a pupil sample has been
obtained: the marker position `marker_pos` for this site determines
`pos = (marker_pos - .5) * window_size_frame` with
`window_size_frame = exp_win.size - MARKER_SIZE*2`, and the pair is kept only when
`f > CALIBRATION_LEAD_IN and f < len(radius_anim) - CALIBRATION_LEAD_OUT`
(with `len(radius_anim) = MARKER_DURATION_FRAMES`) and
`pupil.confidence > PUPIL_CONFIDENCE_THRESHOLD`. -/
def frameStep (exp_win_size : ℚ × ℚ) (marker_pos : ℚ × ℚ) (site_id f : ℕ)
    (pupil : PupilSample) (st : CalibData) : CalibData :=
  if CALIBRATION_LEAD_IN < f ∧ f < MARKER_DURATION_FRAMES - CALIBRATION_LEAD_OUT then
    if PUPIL_CONFIDENCE_THRESHOLD < pupil.confidence then
      let pos : ℚ × ℚ :=
        ((marker_pos.1 - 1/2) * (exp_win_size.1 - MARKER_SIZE * 2),
         (marker_pos.2 - 1/2) * (exp_win_size.2 - MARKER_SIZE * 2))
      let pos_decenter : ℚ × ℚ :=
        (pos.1 / exp_win_size.1 * 2, pos.2 / exp_win_size.2 * 2)
      { all_refs_per_flip :=
          st.all_refs_per_flip ++ [⟨pos_decenter, pos_decenter, pupil.timestamp⟩],
        all_pupils := st.all_pupils ++ [pupil],
        added_frames := st.added_frames ++ [(site_id, f)] }
    else st
  else st

/-- The inner `for f, r in enumerate(radius_anim)` loop of one marker site.
`getPupil` models `self.eyetracker.get_pupil()` as a function of a global tick
(one tick per rendered frame); `frames` is the list of remaining frame indices.
Returns the next tick, the updated collection state, and `false` when the loop
aborted because `get_pupil()` returned `None` (lines 89-91: `return`). -/
def siteLoop (getPupil : ℕ → Option PupilSample) (exp_win_size : ℚ × ℚ)
    (site_id : ℕ) (marker_pos : ℚ × ℚ) :
    List ℕ → ℕ → CalibData → ℕ × CalibData × Bool
  | [], tick, st => (tick, st, true)
  | f :: fs, tick, st =>
    match getPupil tick with
    | none => (tick, st, false)
    | some pupil =>
      siteLoop getPupil exp_win_size site_id marker_pos fs (tick + 1)
        (frameStep exp_win_size marker_pos site_id f pupil st)

/-- The outer `for site_id in random_order` loop (lines 78-103). `sites` is the
randomized visitation order (a permutation of the marker indices; modelled as an
arbitrary list since `np.random.permutation` is ambient randomness). -/
def runSites (getPupil : ℕ → Option PupilSample) (exp_win_size : ℚ × ℚ) :
    List ℕ → ℕ → CalibData → ℕ × CalibData × Bool
  | [], tick, st => (tick, st, true)
  | s :: ss, tick, st =>
    match siteLoop getPupil exp_win_size s ((MARKER_POSITIONS.getD s (0, 0)))
        (List.range MARKER_DURATION_FRAMES) tick st with
    | (tick2, st2, true) => runSites getPupil exp_win_size ss tick2 st2
    | (tick2, st2, false) => (tick2, st2, false)

/-- Specification predicate: frame `f` of a marker animation lies strictly
between the lead-in and lead-out exclusion windows (the kept region of the
condition at line 94). -/
def inKeptWindow (f : ℕ) : Prop :=
  CALIBRATION_LEAD_IN < f ∧ f < MARKER_DURATION_FRAMES - CALIBRATION_LEAD_OUT

/-! ## calibrate — both backends (EyeTracker lines 497-506, EyeTrackerClient lines 205-218) -/

/-- The calibration-related slice of `EyeTracker` state: `map_fn` / `calib_params`
are absent until a successful calibration (`hasattr` in the code); `saved_files`
records files written with `np.savetxt`. `M` is the type of the fitted mapping
returned by the external `calibration_routines.calibrate.calibrate_2d_polynomial`. -/
structure EyeTrackerCalibState (M : Type) where
  map_fn : Option M
  calib_params : Option (List ℚ)
  saved_files : List String

/-- `EyeTracker.calibrate(self, all_refs_per_flip, all_pupils_normpos)`
(lines 497-506). Below the minimum it returns immediately; otherwise it writes
`calibration_data.txt`, runs the external 2d-polynomial solver (modelled by the
`solver` parameter, which like any external call may raise) and installs
`map_fn` / `calib_params`. -/
def EyeTracker.calibrate {M : Type}
    (solver : List (ℚ × ℚ) → List (ℚ × ℚ) → Except String (M × ℕ × List ℚ))
    (all_refs_per_flip all_pupils_normpos : List (ℚ × ℚ))
    (st : EyeTrackerCalibState M) : Except String (EyeTrackerCalibState M) :=
  if all_refs_per_flip.length < 100 then .ok st
  else do
    let fit ← solver all_pupils_normpos all_refs_per_flip
    .ok { map_fn := some fit.1,
          calib_params := some fit.2.2,
          saved_files := st.saved_files ++ ["calibration_data.txt"] }

/-- `EyeTrackerClient.calibrate(self, pupil_list, ref_list, frame_size)`
(lines 205-218). Below the minimum it returns immediately; otherwise it issues
two control requests over the REQ socket. `requests` is the trace of control
requests already issued by this client. -/
def EyeTrackerClient.calibrate (pupil_list : List PupilSample)
    (ref_list : List RefTarget) (frame_size : ℚ × ℚ)
    (requests : List String) : Except String (List String) :=
  if pupil_list.length < 100 then .ok requests
  else .ok (requests ++ ["start_plugin Mock_Calibration", "calibrate.from_external_data"])

/-! ## EyeTracker.set_roi (lines 378-397) -/

/-- The `Roi` object built by `set_roi`: the four bounds plus the derived size. -/
structure Roi where
  lX : ℤ
  lY : ℤ
  uX : ℤ
  uY : ℤ
  width : ℤ
  height : ℤ
  deriving DecidableEq, Repr

/-- The ROI-related slice of `EyeTracker` state: the active region `roi` and the
display rectangle `_roi_stim` (position, width, height). -/
structure RoiState where
  roi : Option Roi
  roi_stim : Option ((ℚ × ℚ) × ℤ × ℤ)
  deriving DecidableEq, Repr

/-- `EyeTracker.set_roi(self, lX, lY, uX, uY)` (lines 378-397): when the requested
rectangle has non-positive width or height the method returns immediately
(line 382-383) — there is no exception; otherwise it installs the new `Roi` and
updates the display rectangle. `camW`, `camH` are `self._width`, `self._height`. -/
def EyeTracker.set_roi (camW camH : ℤ) (st : RoiState) (lX lY uX uY : ℤ) :
    Except String RoiState :=
  let roi_width := uX - lX
  let roi_height := uY - lY
  if roi_width ≤ 0 ∨ roi_height ≤ 0 then .ok st
  else .ok
    { roi := some ⟨lX, lY, uX, uY, roi_width, roi_height⟩,
      roi_stim := some
        (((lX : ℚ) + ((roi_width : ℚ) - (camW : ℚ)) / 2,
          (lY : ℚ) + ((roi_height : ℚ) - (camH : ℚ)) / 2),
         roi_width, roi_height) }

/-! ## Shared latest-sample slot (EyeTracker.get_pupil lines 404-406, update lines 456-459) -/

/-- Atomic events on the lock-protected slot `self.pupils`. Every access in the
code happens inside `with self.lock:` (`update` lines 456-459 writes the whole
sample object in one critical section; `get_pupil` lines 404-406 reads it in
one critical section), so any concurrent execution is equivalent to a serial
interleaving of these whole-sample events. -/
inductive SlotEvent
  | write (s : PupilSample)
  | read
  deriving DecidableEq, Repr

/-- Run a serialized trace of slot events. Returns the final cell content and
the list of values observed by the `read` events, in order. -/
def runSlot : List SlotEvent → Option PupilSample → Option PupilSample × List (Option PupilSample)
  | [], cell => (cell, [])
  | .write s :: evts, _ => runSlot evts (some s)
  | .read :: evts, cell =>
    let r := runSlot evts cell
    (r.1, cell :: r.2)

/-! ## EyeTracker acquisition loop (run lines 408-442, update lines 444-460) -/

/-- What one iteration of the acquisition loop encounters. `frame_ok ts p`: the
camera delivered a frame at capture timestamp `ts` and the detector returned the
pupil dict `p` (possibly with confidence 0, i.e. "not found" as a value).
`capture_error`: `select` / `read_and_queue` / the frame decode raised.
`detector_error`: `self._detector.detect` raised. -/
inductive FrameEvent
  | frame_ok (ts : ℚ) (p : PupilSample)
  | capture_error (msg : String)
  | detector_error (msg : String)
  deriving DecidableEq, Repr

/-- Per-sample log line written by `run` (lines 423-427):
`(timestamp, norm_pos x, norm_pos y, diameter, confidence)` (the gaze suffix is
appended only once calibrated; the uncalibrated line is modelled). -/
def logLine (ts : ℚ) (p : PupilSample) : ℚ × ℚ × ℚ × ℚ × ℚ :=
  (ts, p.norm_pos.1, p.norm_pos.2, p.diameter, p.confidence)

/-- The loop-visible acquisition state: the shared `self.pupils` slot, the lines
written to the `.log` file, and the number of frames written to the video sink. -/
structure AcqState where
  pupils : Option PupilSample
  log_lines : List (ℚ × ℚ × ℚ × ℚ × ℚ)
  frames_written : ℕ
  deriving DecidableEq, Repr

def AcqState.init : AcqState := ⟨none, [], 0⟩

/-- One iteration of `while not self.stoprequest.isSet()` (lines 421-442):
`update()` captures, detects, publishes the sample and writes the video frame;
`run` then appends the log line. Neither `update` nor `run` contains any
`try/except`, so a capture or detector exception propagates (`.error`). -/
def acqStep (st : AcqState) : FrameEvent → Except String AcqState
  | .frame_ok ts p =>
    .ok { pupils := some p,
          log_lines := st.log_lines ++ [logLine ts p],
          frames_written := st.frames_written + 1 }
  | .capture_error msg => .error msg
  | .detector_error msg => .error msg

/-- The acquisition loop over a finite schedule of frame events (the prefix of
camera activity until `stoprequest` is observed). Returns the state reached and
`some msg` when the thread died with an uncaught exception — in that case the
remaining events are never processed. -/
def acqLoop (st : AcqState) : List FrameEvent → AcqState × Option String
  | [] => (st, none)
  | e :: es =>
    match acqStep st e with
    | .ok st2 => acqLoop st2 es
    | .error msg => (st, some msg)

/-- The exception (if any) that an iteration raises on this event. -/
def FrameEvent.errMsg : FrameEvent → Option String
  | .frame_ok _ _ => none
  | .capture_error msg => some msg
  | .detector_error msg => some msg

/-! ## EyeTracker lifecycle: join (lines 399-402) and release (lines 492-495) -/

/-- Lifecycle slice of `EyeTracker` state. `thread_started`: `Thread.start()` was
called; `videowriter_exists`: `run()` executed far enough to create
`self._videowriter` (line 412). The two counters record how many times each OS
resource has been closed. -/
structure TrackerLifeState where
  thread_started : Bool
  stoprequest : Bool
  videowriter_exists : Bool
  videocap_close_count : ℕ
  videowriter_close_count : ℕ
  deriving DecidableEq, Repr

/-- The state right after `EyeTracker.__init__`: thread not started, no video
writer, nothing closed. -/
def TrackerLifeState.init : TrackerLifeState := ⟨false, false, false, 0, 0⟩

/-- `EyeTracker.release` (lines 492-495): closes the capture device, then
`self._videowriter.close()` — an `AttributeError` if `run()` never created the
writer. -/
def EyeTracker.release (st : TrackerLifeState) : Except String TrackerLifeState :=
  let st2 := { st with videocap_close_count := st.videocap_close_count + 1 }
  if st2.videowriter_exists then
    .ok { st2 with videowriter_close_count := st2.videowriter_close_count + 1 }
  else .error "AttributeError: EyeTracker object has no attribute _videowriter"

/-- `EyeTracker.join` (lines 399-402): sets the stop flag, calls
`threading.Thread.join` — which raises `RuntimeError` when the thread was never
started — and then `release()`. There is no guard of any kind. -/
def EyeTracker.join (st : TrackerLifeState) : Except String TrackerLifeState :=
  let st2 := { st with stoprequest := true }
  if st2.thread_started then EyeTracker.release st2
  else .error "RuntimeError: cannot join thread before it is started"

/-! ## EyeTrackerClient.join — shutdown renames (lines 145-159) -/

/-- `os.rename(src, dst)` on a filesystem modelled as the list of names present
in the output directory: raises `FileNotFoundError` when `src` is absent. -/
def os_rename (fs : List String) (src dst : String) : Except String (List String) :=
  if src ∈ fs then .ok (dst :: fs.erase src)
  else .error ("FileNotFoundError: " ++ src)

/-- `EyeTrackerClient.join` (lines 145-159): sets the stop flag, issues the
`recording.stopped` and `service_process.should_stop` control requests, waits
for the external process, then unconditionally renames `eye0.mp4` and
`eye0_timestamps.npy` to their session-scoped names. Returns the resulting
filesystem and the control requests issued. -/
def EyeTrackerClient.join (fs : List String) (output_fname_base : String) :
    Except String (List String × List String) :=
  match os_rename fs "eye0.mp4" (output_fname_base ++ "_eye0.mp4") with
  | .error e => .error e
  | .ok fs2 =>
    match os_rename fs2 "eye0_timestamps.npy" (output_fname_base ++ "_eye0_timestamps.npy") with
    | .error e => .error e
    | .ok fs3 => .ok (fs3, ["recording.stopped", "service_process.should_stop"])

/-! ## EyeTrackerClient.run — receive loop (lines 161-194) -/

/-- State of the client receive loop: the two lock-protected slots, the
edge-trigger flag `recording_started`, the control requests issued from inside
the loop, and the messages serialized to the on-disk gaze stream. A message is a
`(topic, payload)` pair; payloads are modelled as pupil-sample dicts. -/
structure ClientRunState where
  pupil : Option PupilSample
  gaze : Option PupilSample
  recording_started : Bool
  requests : List String
  gaze_file : List PupilSample
  deriving DecidableEq, Repr

def ClientRunState.init : ClientRunState := ⟨none, none, false, [], []⟩

/-- One iteration of the receive loop (lines 173-192): on any received message,
if recording has not started yet, issue the `recording.started` control request
and set the flag; then demultiplex by topic prefix into the `pupil` / `gaze`
slots; gaze messages are additionally appended to the on-disk stream. -/
def clientStep (st : ClientRunState) (msg : String × PupilSample) : ClientRunState :=
  let st1 :=
    if st.recording_started then st
    else { st with requests := st.requests ++ ["recording.started"], recording_started := true }
  let st2 :=
    if msg.1.startsWith "pupil" then { st1 with pupil := some msg.2 } else st1
  let st3 :=
    if msg.1.startsWith "gaze" then { st2 with gaze := some msg.2 } else st2
  if msg.1.startsWith "gaze" then { st3 with gaze_file := st3.gaze_file ++ [msg.2] } else st3

/-- The receive loop over the finite sequence of messages delivered before
`stoprequest` is observed. -/
def clientRun (msgs : List (String × PupilSample)) : ClientRunState :=
  msgs.foldl clientStep ClientRunState.init

/-! ## Gaze overlay (EyeTracker.draw_gazepoint lines 480-490, GazeDrawer lines 222-240) -/

/-- A Python float that may be IEEE NaN: `none` is NaN. -/
abbrev FloatN := Option ℚ

/-- `np.isnan`. -/
def np_isnan (v : FloatN) : Bool := v.isNone

/-- NaN-propagating scalar arithmetic used in the position computation. -/
def fscale (v : FloatN) (k : ℚ) : FloatN := v.map (fun q => q * k)

/-- Python `int()` on a float: truncates toward zero, raises `ValueError` on NaN. -/
def py_int : FloatN → Except String ℤ
  | none => .error "ValueError: cannot convert float NaN to integer"
  | some q => .ok (q.num.tdiv (q.den : ℤ))

/-- The overlay-relevant slice of `EyeTracker` state: whether `self.map_fn`
exists (`hasattr`, line 481), the current `self.pos_cal` (absent until `update`
runs once after a calibration), and the ghost list of marker positions drawn. -/
structure GazeDrawState where
  has_map_fn : Bool
  pos_cal : Option (FloatN × FloatN)
  drawn : List (ℤ × ℤ)
  deriving DecidableEq, Repr

/-- `EyeTracker.draw_gazepoint(self, win)` (lines 480-490): renders nothing when
no mapping is installed; otherwise reads `pos_cal` under the lock, and — exactly
as written at line 484 — returns when `np.isnan(pos_cal[0]) or
np.isnan(pos_cal[0])` (the first coordinate is tested twice); otherwise draws at
`(int(pos_cal[0]/2*size[0]), int(pos_cal[1]/2*size[1]))`. -/
def EyeTracker.draw_gazepoint (ctl_win_size : ℚ × ℚ) (st : GazeDrawState) :
    Except String GazeDrawState :=
  if st.has_map_fn = false then .ok st
  else
    match st.pos_cal with
    | none => .error "AttributeError: EyeTracker object has no attribute pos_cal"
    | some pc =>
      if np_isnan pc.1 || np_isnan pc.1 then .ok st
      else do
        let x ← py_int (fscale pc.1 (ctl_win_size.1 / 2))
        let y ← py_int (fscale pc.2 (ctl_win_size.2 / 2))
        .ok { st with drawn := st.drawn ++ [(x, y)] }

/-- `GazeDrawer.draw_gazepoint(self, gaze)` (lines 234-240): subscripts
`gaze[norm_pos]` with no `None` guard — a `None` gaze raises `TypeError` — then
draws at the scaled integer position. -/
def GazeDrawer.draw_gazepoint (win_size : ℚ × ℚ)
    (gaze : Option (FloatN × FloatN)) : Except String (ℤ × ℤ) :=
  match gaze with
  | none => .error "TypeError: NoneType object is not subscriptable"
  | some pos => do
    let x ← py_int (fscale pos.1 (win_size.1 / 2))
    let y ← py_int (fscale pos.2 (win_size.2 / 2))
    .ok (x, y)

/-! ## Concrete fixtures used by counterexamples and witnesses -/

/-- A previously active region (the default full-frame ROI installed by
`__init__` via `set_roi(0, 0, width, height)`). -/
def roiPrev : RoiState :=
  ⟨some ⟨0, 0, 640, 480, 640, 480⟩, some ((0, 0), 640, 480)⟩

/-- A lifecycle state after a successful `start()` (thread running, `run()`
created the video writer, nothing closed yet). -/
def trackerStarted : TrackerLifeState := ⟨true, false, true, 0, 0⟩

/-- Overlay state with a mapping installed and `pos_cal = (0.5, NaN)`. -/
def gazeNanY : GazeDrawState := ⟨true, some (some (1/2), none), []⟩

/-- A well-detected pupil sample at timestamp `t`. -/
def okPupil (t : ℚ) : PupilSample := ⟨(3/10, 6/10), 40, 9/10, t⟩

/-- Acquisition schedule of the C2 scenario shrunk to checkable size: the
camera read fails after frame 5 of 10. -/
def failAfter5 : List FrameEvent :=
  [.frame_ok 0 (okPupil 0), .frame_ok 1 (okPupil 1), .frame_ok 2 (okPupil 2),
   .frame_ok 3 (okPupil 3), .frame_ok 4 (okPupil 4),
   .capture_error "OSError: VIDIOC_DQBUF failed",
   .frame_ok 6 (okPupil 6), .frame_ok 7 (okPupil 7),
   .frame_ok 8 (okPupil 8), .frame_ok 9 (okPupil 9)]

/-- Two distinct complete samples for the slot-interleaving witness. -/
def slotSampleA : PupilSample := ⟨(1/10, 2/10), 30, 8/10, 100⟩

def slotSampleB : PupilSample := ⟨(7/10, 9/10), 35, 7/10, 101⟩

/-- A serialized trace with a read between the two publishes and one after. -/
def slotTrace : List SlotEvent :=
  [.write slotSampleA, .read, .write slotSampleB, .read]

/-- Pupil stream for the C7 witness: confidence above the threshold only at
tick 21 (inside the kept window of the single visited site). -/
def spikeAt21 : ℕ → Option PupilSample :=
  fun t => some ⟨(0, 0), 10, if t = 21 then 1 else 0, (t : ℚ)⟩

/-! ## Helper lemmas -/

lemma PUPIL_CONFIDENCE_THRESHOLD_eq : PUPIL_CONFIDENCE_THRESHOLD = 2/5 := by
  unfold PUPIL_CONFIDENCE_THRESHOLD
  rw [Rat.mk'_eq_divInt, Rat.divInt_eq_div]
  norm_num

lemma os_rename_mem (fs : List String) (src dst : String) (h : src ∈ fs) :
    os_rename fs src dst = .ok (dst :: fs.erase src) := by
  unfold os_rename
  rw [if_pos h]

lemma os_rename_not_mem (fs : List String) (src dst : String) (h : src ∉ fs) :
    os_rename fs src dst = .error ("FileNotFoundError: " ++ src) := by
  unfold os_rename
  rw [if_neg h]

/-! ## C1 -/

/-- C1: for every dataset with fewer than 100 paired samples, `calibrate` on
either backend (`EyeTracker` or `EyeTrackerClient`) is a no-op: it never
installs a new gaze mapping (`map_fn` stays absent or unchanged — the whole
state is returned untouched), issues no control requests, and never raises
(the result is `.ok` of the unchanged state / request trace). -/
theorem C1_calibrate_below_minimum_noop {M : Type}
    (solver : List (ℚ × ℚ) → List (ℚ × ℚ) → Except String (M × ℕ × List ℚ))
    (all_refs_per_flip all_pupils_normpos : List (ℚ × ℚ))
    (st : EyeTrackerCalibState M)
    (pupil_list : List PupilSample) (ref_list : List RefTarget)
    (frame_size : ℚ × ℚ) (requests : List String)
    (hpaired : all_pupils_normpos.length = all_refs_per_flip.length)
    (hsmall : all_pupils_normpos.length < 100)
    (hpaired2 : pupil_list.length = ref_list.length)
    (hsmall2 : ref_list.length < 100) :
    EyeTracker.calibrate solver all_refs_per_flip all_pupils_normpos st = .ok st ∧
    EyeTrackerClient.calibrate pupil_list ref_list frame_size requests = .ok requests := by
  constructor
  · unfold EyeTracker.calibrate
    rw [if_pos (hpaired ▸ hsmall)]
  · unfold EyeTrackerClient.calibrate
    rw [if_pos (hpaired2 ▸ hsmall2)]

/-- Witness for C1 at the empty paired dataset and a unit solver. -/
theorem C1_calibrate_below_minimum_noop_witness :
    EyeTracker.calibrate (fun _ _ => .ok ((), 0, [])) [] []
      (⟨none, none, []⟩ : EyeTrackerCalibState Unit) = .ok ⟨none, none, []⟩ ∧
    EyeTrackerClient.calibrate [] [] (640, 480) [] = .ok [] :=
  C1_calibrate_below_minimum_noop (fun _ _ => .ok ((), 0, [])) [] []
    ⟨none, none, []⟩ [] [] (640, 480) []
    (by decide) (by decide) (by decide) (by decide)

/-! ## C3 -/

/-- C3 counterexample: a zero-width update request (`lX = uX = 10`) is NOT
rejected with a `ConfigError`: `set_roi` returns normally (`.ok`, no exception
of any kind) with the previous region — the claim that an error is raised is
false. The code has no `ConfigError` anywhere; line 383 is a bare `return`. -/
theorem C3_counterexample_no_config_error :
    EyeTracker.set_roi 640 480 roiPrev 10 10 10 20 = Except.ok roiPrev := by
  rfl

/-- C3 amended: for every region-of-interest update request whose rectangle has
non-positive width or height, the request is rejected silently — `set_roi`
returns without raising any exception and without changing any state, so the
previously active region is retained unchanged. -/
theorem C3_invalid_roi_silently_retained (camW camH : ℤ) (st : RoiState)
    (lX lY uX uY : ℤ) (h : uX - lX ≤ 0 ∨ uY - lY ≤ 0) :
    EyeTracker.set_roi camW camH st lX lY uX uY = .ok st := by
  unfold EyeTracker.set_roi
  rw [if_pos h]

/-- Witness for the amended C3 at a concrete zero-height request. -/
theorem C3_invalid_roi_silently_retained_witness :
    EyeTracker.set_roi 640 480 roiPrev 5 7 30 7 = .ok roiPrev :=
  C3_invalid_roi_silently_retained 640 480 roiPrev 5 7 30 7 (by decide)

/-! ## C5 -/

/-- C5 counterexample: calling `join()` when `start()` never ran is NOT safe:
`threading.Thread.join` raises `RuntimeError` on a never-started thread
(and even past that point, `release()` would hit a missing `_videowriter`).
The claim that it produces no error is false. -/
theorem C5_counterexample_join_before_start_raises :
    EyeTracker.join TrackerLifeState.init =
      Except.error "RuntimeError: cannot join thread before it is started" := by
  rfl

/-- C5 amended: after a successful `start()` (thread started and `run()`
created the video writer), `join()` stops the thread and closes the capture
device and the video writer once; calling `join()` when `start()` never ran
raises `RuntimeError`; and a second `join()` after the first closes both
resources a second time (a double release of the already-closed handles). -/
theorem C5_join_lifecycle :
    (∀ st : TrackerLifeState, st.thread_started = false →
      EyeTracker.join st =
        Except.error "RuntimeError: cannot join thread before it is started") ∧
    (∀ st : TrackerLifeState, st.thread_started = true → st.videowriter_exists = true →
      EyeTracker.join st = .ok
        { st with
          stoprequest := true,
          videocap_close_count := st.videocap_close_count + 1,
          videowriter_close_count := st.videowriter_close_count + 1 }) ∧
    (∀ st : TrackerLifeState, st.thread_started = true → st.videowriter_exists = true →
      (EyeTracker.join st).bind EyeTracker.join = .ok
        { st with
          stoprequest := true,
          videocap_close_count := st.videocap_close_count + 2,
          videowriter_close_count := st.videowriter_close_count + 2 }) := by
  refine ⟨fun st h => ?_, fun st h1 h2 => ?_, fun st h1 h2 => ?_⟩
  · simp [EyeTracker.join, h]
  · simp [EyeTracker.join, EyeTracker.release, h1, h2]
  · simp [EyeTracker.join, EyeTracker.release, h1, h2, Except.bind]

/-- Witness for the amended C5: the three behaviors at concrete states. -/
theorem C5_join_lifecycle_witness :
    EyeTracker.join TrackerLifeState.init =
      Except.error "RuntimeError: cannot join thread before it is started" ∧
    EyeTracker.join trackerStarted = .ok ⟨true, true, true, 1, 1⟩ ∧
    (EyeTracker.join trackerStarted).bind EyeTracker.join = .ok ⟨true, true, true, 2, 2⟩ :=
  ⟨C5_join_lifecycle.1 TrackerLifeState.init rfl,
   C5_join_lifecycle.2.1 trackerStarted rfl rfl,
   C5_join_lifecycle.2.2 trackerStarted rfl rfl⟩

/-! ## C6 -/

/-- C6 counterexample: when the external process never produced output (empty
output directory), the rename during `EyeTrackerClient.join` is NOT skipped:
`os.rename` raises `FileNotFoundError` — the claim that it is skipped without
error is false. The code (lines 157-158) calls `os.rename` unconditionally. -/
theorem C6_counterexample_rename_raises :
    EyeTrackerClient.join [] "ses1" =
      Except.error ("FileNotFoundError: " ++ "eye0.mp4") := by
  rfl

/-- C6 amended: during `EyeTrackerClient` shutdown the renames are attempted
unconditionally; whenever the eye-video source artifact does not exist,
`join` raises `FileNotFoundError` instead of skipping; when both artifacts
exist, both renames succeed and `join` returns normally. -/
theorem C6_join_renames_unconditionally :
    (∀ (fs : List String) (base : String), "eye0.mp4" ∉ fs →
      EyeTrackerClient.join fs base =
        Except.error ("FileNotFoundError: " ++ "eye0.mp4")) ∧
    (∀ (fs : List String) (base : String), "eye0.mp4" ∈ fs →
      "eye0_timestamps.npy" ∈ fs.erase "eye0.mp4" →
      EyeTrackerClient.join fs base =
        .ok ((base ++ "_eye0_timestamps.npy") ::
              ((base ++ "_eye0.mp4") :: (fs.erase "eye0.mp4")).erase "eye0_timestamps.npy",
             ["recording.stopped", "service_process.should_stop"])) := by
  constructor
  · intro fs base h
    unfold EyeTrackerClient.join
    rw [os_rename_not_mem fs "eye0.mp4" _ h]
  · intro fs base h1 h2
    unfold EyeTrackerClient.join
    rw [os_rename_mem fs "eye0.mp4" _ h1]
    dsimp only
    rw [os_rename_mem _ "eye0_timestamps.npy" _ (List.mem_cons_of_mem _ h2)]

/-- Witness for the amended C6: the missing-artifact error and the
two-artifact success at concrete directories. -/
theorem C6_join_renames_unconditionally_witness :
    EyeTrackerClient.join ["other.txt"] "ses2" =
      Except.error ("FileNotFoundError: " ++ "eye0.mp4") ∧
    EyeTrackerClient.join ["eye0.mp4", "eye0_timestamps.npy"] "ses2" =
      .ok (["ses2_eye0_timestamps.npy", "ses2_eye0.mp4"],
           ["recording.stopped", "service_process.should_stop"]) :=
  ⟨C6_join_renames_unconditionally.1 ["other.txt"] "ses2" (by decide),
   C6_join_renames_unconditionally.2 ["eye0.mp4", "eye0_timestamps.npy"] "ses2"
     (by decide) (by decide)⟩

/-! ## C9 -/

/-- C9: the gaze overlay does NOT tolerate every snapshot without raising.
The NaN guard at line 484 tests `pos_cal[0]` twice (a slip for `pos_cal[1]`),
so with a mapping installed and `pos_cal = (0.5, NaN)` the guard passes and
`int(pos_cal[1]/2*size[1])` raises `ValueError`; and `GazeDrawer.draw_gazepoint`
subscripts its argument with no guard, so a `None` sample raises `TypeError`.
This evaluates the code at those failing inputs. -/
theorem C9_overlay_raises_on_nan_and_none :
    EyeTracker.draw_gazepoint (1024, 768) gazeNanY =
      Except.error "ValueError: cannot convert float NaN to integer" ∧
    GazeDrawer.draw_gazepoint (1024, 768) none =
      Except.error "TypeError: NoneType object is not subscriptable" := by
  exact ⟨rfl, rfl⟩

/-! ## C2 -/

/-- C2 counterexample: on the schedule where the camera read fails after frame 5
of 10, the loop does NOT produce a zero-confidence sample and continue — it dies
with the uncaught exception after logging only the 5 frames before the failure
(no zero-confidence line, none of the remaining frames processed). -/
theorem C2_counterexample_exception_kills_loop :
    (acqLoop AcqState.init failAfter5).2 = some "OSError: VIDIOC_DQBUF failed" ∧
    (acqLoop AcqState.init failAfter5).1.log_lines =
      [logLine 0 (okPupil 0), logLine 1 (okPupil 1), logLine 2 (okPupil 2),
       logLine 3 (okPupil 3), logLine 4 (okPupil 4)] := by
  exact ⟨rfl, rfl⟩

lemma acqLoop_append_fail :
    ∀ (good : List FrameEvent) (st : AcqState) (e : FrameEvent)
      (rest : List FrameEvent) (msg : String),
      (∀ x ∈ good, x.errMsg = none) → e.errMsg = some msg →
      acqLoop st (good ++ e :: rest) = ((acqLoop st good).1, some msg) ∧
        (acqLoop st good).2 = none
  | [], st, e, rest, msg, _, he => by
    cases e with
    | frame_ok ts p => simp [FrameEvent.errMsg] at he
    | capture_error m =>
      simp only [FrameEvent.errMsg, Option.some.injEq] at he
      subst he
      exact ⟨rfl, rfl⟩
    | detector_error m =>
      simp only [FrameEvent.errMsg, Option.some.injEq] at he
      subst he
      exact ⟨rfl, rfl⟩
  | x :: good, st, e, rest, msg, hgood, he => by
    have hx := hgood x (List.mem_cons_self x good)
    cases x with
    | frame_ok ts p =>
      exact acqLoop_append_fail good
        ⟨some p, st.log_lines ++ [logLine ts p], st.frames_written + 1⟩
        e rest msg (fun y hy => hgood y (List.mem_cons_of_mem _ hy)) he
    | capture_error m => simp [FrameEvent.errMsg] at hx
    | detector_error m => simp [FrameEvent.errMsg] at hx

/-- C2 amended: a capture failure or detector exception on a frame is NOT
caught: it terminates the acquisition loop at that frame — the state keeps
exactly the log of the preceding successful frames, no zero-confidence sample
is logged for the failing frame, and the remaining frames are never processed
(while a loop of only successful frames never crashes). Only a detector result
returned as a value with confidence 0 ("not found") is published, logged and
followed by the next iteration. -/
theorem C2_exception_aborts_loop (st : AcqState) (good : List FrameEvent)
    (e : FrameEvent) (rest : List FrameEvent) (msg : String)
    (ts : ℚ) (p : PupilSample)
    (hgood : ∀ x ∈ good, x.errMsg = none) (he : e.errMsg = some msg)
    (hconf : p.confidence = 0) :
    acqLoop st (good ++ e :: rest) = ((acqLoop st good).1, some msg) ∧
    (acqLoop st good).2 = none ∧
    acqStep st (.frame_ok ts p) =
      .ok ⟨some p, st.log_lines ++ [logLine ts p], st.frames_written + 1⟩ := by
  have h := acqLoop_append_fail good st e rest msg hgood he
  exact ⟨h.1, h.2, rfl⟩

/-- Witness for the amended C2 at the concrete fail-after-5 schedule. -/
theorem C2_exception_aborts_loop_witness :
    acqLoop AcqState.init
        ([.frame_ok 0 (okPupil 0), .frame_ok 1 (okPupil 1), .frame_ok 2 (okPupil 2),
          .frame_ok 3 (okPupil 3), .frame_ok 4 (okPupil 4)] ++
         .capture_error "OSError: VIDIOC_DQBUF failed" ::
          [.frame_ok 6 (okPupil 6), .frame_ok 7 (okPupil 7),
           .frame_ok 8 (okPupil 8), .frame_ok 9 (okPupil 9)]) =
      ((acqLoop AcqState.init
          [.frame_ok 0 (okPupil 0), .frame_ok 1 (okPupil 1), .frame_ok 2 (okPupil 2),
           .frame_ok 3 (okPupil 3), .frame_ok 4 (okPupil 4)]).1,
       some "OSError: VIDIOC_DQBUF failed") ∧
    (acqLoop AcqState.init
        [.frame_ok 0 (okPupil 0), .frame_ok 1 (okPupil 1), .frame_ok 2 (okPupil 2),
         .frame_ok 3 (okPupil 3), .frame_ok 4 (okPupil 4)]).2 = none ∧
    acqStep AcqState.init (.frame_ok 0 ⟨(0, 0), 0, 0, 0⟩) =
      .ok ⟨some ⟨(0, 0), 0, 0, 0⟩,
           AcqState.init.log_lines ++ [logLine 0 ⟨(0, 0), 0, 0, 0⟩],
           AcqState.init.frames_written + 1⟩ :=
  C2_exception_aborts_loop AcqState.init
    [.frame_ok 0 (okPupil 0), .frame_ok 1 (okPupil 1), .frame_ok 2 (okPupil 2),
     .frame_ok 3 (okPupil 3), .frame_ok 4 (okPupil 4)]
    (.capture_error "OSError: VIDIOC_DQBUF failed")
    [.frame_ok 6 (okPupil 6), .frame_ok 7 (okPupil 7),
     .frame_ok 8 (okPupil 8), .frame_ok 9 (okPupil 9)]
    "OSError: VIDIOC_DQBUF failed" 0 ⟨(0, 0), 0, 0, 0⟩
    (by decide) rfl rfl

/-! ## C4 -/

lemma runSlot_reads_mem :
    ∀ (evts : List SlotEvent) (cell r : Option PupilSample),
      r ∈ (runSlot evts cell).2 →
      r = cell ∨ ∃ s : PupilSample, SlotEvent.write s ∈ evts ∧ r = some s
  | [], _, _, hr => by simp [runSlot] at hr
  | .write s :: evts, cell, r, hr => by
    rcases runSlot_reads_mem evts (some s) r hr with h | ⟨s2, hm, he⟩
    · exact Or.inr ⟨s, List.mem_cons_self _ _, h⟩
    · exact Or.inr ⟨s2, List.mem_cons_of_mem _ hm, he⟩
  | .read :: evts, cell, r, hr => by
    rcases List.mem_cons.mp hr with h | h
    · exact Or.inl h
    · rcases runSlot_reads_mem evts cell r h with h2 | ⟨s2, hm, he⟩
      · exact Or.inl h2
      · exact Or.inr ⟨s2, List.mem_cons_of_mem _ hm, he⟩

/-- C4: a reader calling `get_pupil()` while the acquisition thread publishes
observes either the whole old sample or the whole new sample, never a mixture:
since both sides access the slot only inside `with self.lock:` critical
sections, every concurrent execution serializes into a trace of whole-sample
events, and every value a read returns is `None` or exactly some sample that a
single `write` published in full. -/
theorem C4_no_torn_sample (evts : List SlotEvent) (r : Option PupilSample)
    (hr : r ∈ (runSlot evts none).2) :
    r = none ∨ ∃ s : PupilSample, SlotEvent.write s ∈ evts ∧ r = some s :=
  runSlot_reads_mem evts none r hr

/-- Witness for C4: on a trace with a read between two publishes, the first
read observes exactly the first published sample. -/
theorem C4_no_torn_sample_witness :
    some slotSampleA = none ∨
    ∃ s : PupilSample, SlotEvent.write s ∈ slotTrace ∧ some slotSampleA = some s :=
  C4_no_torn_sample slotTrace (some slotSampleA)
    (by
      have h : (runSlot slotTrace none).2 = [some slotSampleA, some slotSampleB] := rfl
      rw [h]
      exact List.mem_cons_self _ _)

/-! ## C8 -/

lemma clientStep_recording_started (st : ClientRunState) (m : String × PupilSample) :
    (clientStep st m).recording_started = true := by
  unfold clientStep
  split_ifs with h1 h2 h3 h4 <;> simp_all

lemma clientStep_requests_of_started (st : ClientRunState) (m : String × PupilSample)
    (h : st.recording_started = true) :
    (clientStep st m).requests = st.requests := by
  unfold clientStep
  split_ifs <;> simp_all

lemma clientRun_requests_stable :
    ∀ (msgs : List (String × PupilSample)) (st : ClientRunState),
      st.recording_started = true → (msgs.foldl clientStep st).requests = st.requests
  | [], _, _ => rfl
  | m :: msgs, st, h => by
    rw [List.foldl_cons,
      clientRun_requests_stable msgs _ (clientStep_recording_started st m),
      clientStep_requests_of_started st m h]

lemma clientStep_init_requests (m : String × PupilSample) :
    (clientStep ClientRunState.init m).requests = ["recording.started"] := by
  unfold clientStep ClientRunState.init
  split_ifs <;> simp_all

/-- C8: in the `EyeTrackerClient` receive loop, the `recording.started` control
request is edge-triggered: processing the very first received message issues it
(whatever the message topic), and over any finite sequence of incoming messages
it is issued exactly once — zero times only when no message ever arrives. -/
theorem C8_recording_started_exactly_once :
    (∀ m : String × PupilSample,
      (clientStep ClientRunState.init m).requests = ["recording.started"]) ∧
    (∀ msgs : List (String × PupilSample),
      (clientRun msgs).requests.count "recording.started" =
        if msgs.isEmpty then 0 else 1) := by
  constructor
  · exact clientStep_init_requests
  · intro msgs
    cases msgs with
    | nil => rfl
    | cons m ms =>
      unfold clientRun
      rw [List.foldl_cons,
        clientRun_requests_stable ms _ (clientStep_recording_started _ m),
        clientStep_init_requests m]
      rfl

/-! ## C7 -/

lemma frameStep_added_frames (win mpos : ℚ × ℚ) (s f : ℕ) (p : PupilSample)
    (st : CalibData) :
    (frameStep win mpos s f p st).added_frames = st.added_frames ∨
    ((frameStep win mpos s f p st).added_frames = st.added_frames ++ [(s, f)] ∧
      inKeptWindow f) := by
  unfold frameStep
  split
  · rename_i hcond
    split
    · exact Or.inr ⟨rfl, hcond⟩
    · exact Or.inl rfl
  · exact Or.inl rfl

lemma frameStep_added_inv (win mpos : ℚ × ℚ) (s f : ℕ) (p : PupilSample)
    (st : CalibData) (hinv : ∀ q ∈ st.added_frames, inKeptWindow q.2) :
    ∀ q ∈ (frameStep win mpos s f p st).added_frames, inKeptWindow q.2 := by
  intro q hq
  rcases frameStep_added_frames win mpos s f p st with h | ⟨h, hf⟩
  · exact hinv q (by rwa [h] at hq)
  · rw [h] at hq
    rcases List.mem_append.mp hq with h2 | h2
    · exact hinv q h2
    · have hq2 : q = (s, f) := List.eq_of_mem_singleton h2
      subst hq2
      exact hf

lemma siteLoop_added_inv (getPupil : ℕ → Option PupilSample) (win mpos : ℚ × ℚ)
    (s : ℕ) :
    ∀ (frames : List ℕ) (tick : ℕ) (st : CalibData),
      (∀ q ∈ st.added_frames, inKeptWindow q.2) →
      ∀ q ∈ (siteLoop getPupil win s mpos frames tick st).2.1.added_frames,
        inKeptWindow q.2
  | [], _, _, hinv => hinv
  | f :: fs, tick, st, hinv => by
    simp only [siteLoop]
    cases hg : getPupil tick with
    | none => exact hinv
    | some p =>
      exact siteLoop_added_inv getPupil win mpos s fs (tick + 1) _
        (frameStep_added_inv win mpos s f p st hinv)

lemma runSites_added_inv (getPupil : ℕ → Option PupilSample) (win : ℚ × ℚ) :
    ∀ (sites : List ℕ) (tick : ℕ) (st : CalibData),
      (∀ q ∈ st.added_frames, inKeptWindow q.2) →
      ∀ q ∈ (runSites getPupil win sites tick st).2.1.added_frames, inKeptWindow q.2
  | [], _, _, hinv => hinv
  | s :: ss, tick, st, hinv => by
    simp only [runSites]
    have hsite := siteLoop_added_inv getPupil win (MARKER_POSITIONS.getD s (0, 0)) s
      (List.range MARKER_DURATION_FRAMES) tick st hinv
    rcases hr : siteLoop getPupil win s (MARKER_POSITIONS.getD s (0, 0))
        (List.range MARKER_DURATION_FRAMES) tick st with ⟨t2, st2, b⟩
    rw [hr] at hsite
    cases b
    · exact hsite
    · exact runSites_added_inv getPupil win ss t2 st2 hsite

/-- C7: for every marker site visited by the calibration routine, no
(pupil, reference) pair whose frame index falls within the lead-in window at
the start (`f < CALIBRATION_LEAD_IN`) or the lead-out window at the end
(`f ≥ MARKER_DURATION_FRAMES - CALIBRATION_LEAD_OUT`) of that marker's
animation is ever added to the calibration dataset — for every pupil stream,
window size, randomized site order and starting tick. -/
theorem C7_lead_windows_never_added (getPupil : ℕ → Option PupilSample)
    (exp_win_size : ℚ × ℚ) (sites : List ℕ) (tick0 : ℕ) (q : ℕ × ℕ)
    (hq : q ∈ (runSites getPupil exp_win_size sites tick0 CalibData.init).2.1.added_frames) :
    ¬ (q.2 < CALIBRATION_LEAD_IN ∨
        MARKER_DURATION_FRAMES - CALIBRATION_LEAD_OUT ≤ q.2) := by
  have h := runSites_added_inv getPupil exp_win_size sites tick0 CalibData.init
    (by intro q hq2; simp [CalibData.init] at hq2) q hq
  rcases h with ⟨h1, h2⟩
  intro hcon
  rcases hcon with h3 | h3 <;> omega

set_option maxRecDepth 8000 in
/-- Witness for C7: with a pupil stream confident only at tick 21 and a single
site, exactly one pair is added, at frame 21, which lies in neither window. -/
theorem C7_lead_windows_never_added_witness :
    (0, 21) ∈ (runSites spikeAt21 (100, 100) [0] 0 CalibData.init).2.1.added_frames ∧
    ¬ ((0, 21).2 < CALIBRATION_LEAD_IN ∨
        MARKER_DURATION_FRAMES - CALIBRATION_LEAD_OUT ≤ (0, 21).2) := by
  have hmem : (runSites spikeAt21 (100, 100) [0] 0 CalibData.init).2.1.added_frames =
      [(0, 21)] := by rfl
  refine ⟨?_, ?_⟩
  · rw [hmem]
    exact List.mem_cons_self _ _
  · exact C7_lead_windows_never_added spikeAt21 (100, 100) [0] 0 (0, 21)
      (by rw [hmem]; exact List.mem_cons_self _ _)

/-! ## C10 -/

lemma frameStep_pair_lengths (win mpos : ℚ × ℚ) (s f : ℕ) (p : PupilSample)
    (st : CalibData) :
    ((frameStep win mpos s f p st).all_refs_per_flip.length =
        st.all_refs_per_flip.length + 1 ∧
      (frameStep win mpos s f p st).all_pupils.length = st.all_pupils.length + 1) ∨
    frameStep win mpos s f p st = st := by
  unfold frameStep
  split
  · split
    · left
      constructor <;> simp
    · right
      rfl
  · right
    rfl

lemma frameStep_len_eq (win mpos : ℚ × ℚ) (s f : ℕ) (p : PupilSample)
    (st : CalibData) (h : st.all_refs_per_flip.length = st.all_pupils.length) :
    (frameStep win mpos s f p st).all_refs_per_flip.length =
      (frameStep win mpos s f p st).all_pupils.length := by
  rcases frameStep_pair_lengths win mpos s f p st with ⟨h1, h2⟩ | h1
  · rw [h1, h2, h]
  · rw [h1]
    exact h

lemma siteLoop_len_eq (getPupil : ℕ → Option PupilSample) (win mpos : ℚ × ℚ)
    (s : ℕ) :
    ∀ (frames : List ℕ) (tick : ℕ) (st : CalibData),
      st.all_refs_per_flip.length = st.all_pupils.length →
      (siteLoop getPupil win s mpos frames tick st).2.1.all_refs_per_flip.length =
        (siteLoop getPupil win s mpos frames tick st).2.1.all_pupils.length
  | [], _, _, h => h
  | f :: fs, tick, st, h => by
    simp only [siteLoop]
    cases hg : getPupil tick with
    | none => exact h
    | some p =>
      exact siteLoop_len_eq getPupil win mpos s fs (tick + 1) _
        (frameStep_len_eq win mpos s f p st h)

lemma runSites_len_eq (getPupil : ℕ → Option PupilSample) (win : ℚ × ℚ) :
    ∀ (sites : List ℕ) (tick : ℕ) (st : CalibData),
      st.all_refs_per_flip.length = st.all_pupils.length →
      (runSites getPupil win sites tick st).2.1.all_refs_per_flip.length =
        (runSites getPupil win sites tick st).2.1.all_pupils.length
  | [], _, _, h => h
  | s :: ss, tick, st, h => by
    simp only [runSites]
    have hsite := siteLoop_len_eq getPupil win (MARKER_POSITIONS.getD s (0, 0)) s
      (List.range MARKER_DURATION_FRAMES) tick st h
    rcases hr : siteLoop getPupil win s (MARKER_POSITIONS.getD s (0, 0))
        (List.range MARKER_DURATION_FRAMES) tick st with ⟨t2, st2, b⟩
    rw [hr] at hsite
    cases b
    · exact hsite
    · exact runSites_len_eq getPupil win ss t2 st2 hsite

/-- C10: throughout a run of the calibration routine, each frame either appends
one element to both collection lists or leaves both untouched, so the
reference-target list and the pupil-sample list always have equal length; hence
on the dataset handed to `calibrate`, the `EyeTracker` minimum-size check
(counting its first argument, the references) and the `EyeTrackerClient` check
(counting the pupil list) are equivalent. -/
theorem C10_dataset_always_paired :
    (∀ (win mpos : ℚ × ℚ) (s f : ℕ) (p : PupilSample) (st : CalibData),
      ((frameStep win mpos s f p st).all_refs_per_flip.length =
          st.all_refs_per_flip.length + 1 ∧
        (frameStep win mpos s f p st).all_pupils.length = st.all_pupils.length + 1) ∨
      frameStep win mpos s f p st = st) ∧
    (∀ (getPupil : ℕ → Option PupilSample) (win : ℚ × ℚ) (sites : List ℕ) (tick : ℕ),
      (runSites getPupil win sites tick CalibData.init).2.1.all_refs_per_flip.length =
        (runSites getPupil win sites tick CalibData.init).2.1.all_pupils.length ∧
      ((runSites getPupil win sites tick CalibData.init).2.1.all_refs_per_flip.length < 100 ↔
        (runSites getPupil win sites tick CalibData.init).2.1.all_pupils.length < 100)) := by
  refine ⟨frameStep_pair_lengths, fun getPupil win sites tick => ?_⟩
  have h := runSites_len_eq getPupil win sites tick CalibData.init rfl
  exact ⟨h, by rw [h]⟩
